import Mathlib

/-
Verification development for the resilient WebSocket client/service layer
(src/dashboard/services/websocket-service.js).  The JavaScript closure state
and its event-driven callbacks are shallowly embedded as explicit state
passing: pure fragments become Lean functions, the mutable closure variables
become structure fields, and each asynchronous callback (socket.onopen,
socket.onclose, setTimeout bodies, promise .catch blocks) becomes a state
transition function translated line by line from its source.
-/

/-! ## JSON values (the wire format: JSON text frames `{type: string, ...}`) -/

/-- A JSON value as decoded by `JSON.parse`. -/
inductive Json where
  | null
  | bool (b : Bool)
  | num (q : ℚ)
  | str (s : String)
  | arr (xs : List Json)
  | obj (fields : List (String × Json))

/-- JavaScript truthiness of a value (`!x` tests): `null`, `false`, `0` and
`""` are falsy; objects and arrays are always truthy. -/
def jsTruthy : Json → Bool
  | .null => false
  | .bool b => b
  | .num q => decide (q ≠ 0)
  | .str s => decide (s ≠ "")
  | .arr _ => true
  | .obj _ => true

/-- The JavaScript test `typeof x === "object"`: true for `null`, arrays and plain
objects, false for booleans, numbers and strings. -/
def jsTypeofObject : Json → Bool
  | .null => true
  | .arr _ => true
  | .obj _ => true
  | _ => false

/-- The JavaScript test `typeof x === "string"`. -/
def jsTypeofString : Json → Bool
  | .str _ => true
  | _ => false

/-- Property access `data.f`: `none` models `undefined` (missing field or
non-object receiver). -/
def objGet : Json → String → Option Json
  | .obj fields, f => (fields.find? (fun p => p.1 = f)).map (fun p => p.2)
  | _, _ => none

/-- The JavaScript `x || dflt` idiom applied to a possibly-missing field:
yields `dflt` when the field is absent (`undefined`) or falsy. -/
def jsOrElse (x : Option Json) (dflt : Json) : Json :=
  match x with
  | some v => if jsTruthy v then v else dflt
  | none => dflt

/-- The test `Array.isArray(x) && x.length !== 0` (the updateDisplay validation,
negated form of `!Array.isArray(clientIds) || clientIds.length === 0`). -/
def isNonEmptyArray : Json → Bool
  | .arr xs => ¬ xs.isEmpty
  | _ => false

/-! ## Promise settlement

A JavaScript promise settles at most once: later `resolve`/`reject` calls
are ignored.  `settleOnce o x` is the state of a promise previously in
state `o` after a settlement attempt with outcome `x`. -/

/-- First settlement wins; a settled promise ignores later settlements. -/
def settleOnce {α : Type} (o : Option α) (x : α) : Option α :=
  match o with
  | some y => some y
  | none => some x

/-! ## Request/Response Correlator

Each of the five request operations (getClients, getPresets, updateDisplay,
savePreset, loadPreset) follows the same source pattern:
synchronous validation, `onMessage(messageType, handler)` registration
(a push onto `messageHandlers.get(messageType)`), arming of a
`setTimeout(..., options.timeout || 5000)`, and `send(frame).catch(...)`.
The per-call state tracks the live handler list for the awaited message
type (handlers identified by a numeral standing for the closure identity
that `indexOf` compares), whether the response timeout is armed, and the
promise settlement. -/

/-- Outcome a request promise settles with. -/
inductive ReqResult where
  | resolved (v : Json)
  | rejectedTimeout (msgType : String)
  | rejectedSend (e : String)

/-- Synchronous early-rejection reasons (before any handler registration). -/
inductive ReqError where
  | notConnected
  | invalidArg (msg : String)
deriving DecidableEq

/-- State of one request call: the awaited reply type, the live
`messageHandlers.get(messageType)` list, whether the response timeout is
still armed, and the promise settlement. -/
structure ReqCall where
  messageType : String
  handlers : List ℕ
  timeoutArmed : Bool
  result : Option ReqResult

/-- Result of the synchronous phase of a request operation: either an
early rejection (nothing registered, nothing sent), or a pending call with
its registered one-shot handler, armed timeout, and the command frame
handed to `send`. -/
inductive StartOutcome where
  | earlyReject (err : ReqError)
  | pending (call : ReqCall) (frame : Json)

/-- The expression `options.timeout || 5000`: the response timeout default (5000 ms). -/
def requestTimeoutMs : Option ℕ → ℕ
  | some t => if t = 0 then 5000 else t
  | none => 5000

/-- The `indexOf` + `splice(index, 1)` idiom: remove the first occurrence of `h`
if present, else leave the list unchanged. -/
def spliceFirst : List ℕ → ℕ → List ℕ
  | [], _ => []
  | x :: rest, h => if x = h then rest else x :: spliceFirst rest h

/-- The `getClients(options)` synchronous phase: rejects when not connected
(before registering anything); otherwise registers the one-shot handler
`hid` for `"client_list"` (appended after any `prior` handlers already in
the table), arms the timeout, and produces the `{type:"get_clients"}`
frame. -/
def getClients (isConnected : Bool) (prior : List ℕ) (hid : ℕ) : StartOutcome :=
  if isConnected then
    .pending ⟨"client_list", prior ++ [hid], true, none⟩
      (Json.obj [("type", Json.str "get_clients")])
  else .earlyReject .notConnected

/-- The `getPresets(options)` synchronous phase (same shape as `getClients`,
awaiting `"preset_list"` and sending `{type:"get_presets"}`). -/
def getPresets (isConnected : Bool) (prior : List ℕ) (hid : ℕ) : StartOutcome :=
  if isConnected then
    .pending ⟨"preset_list", prior ++ [hid], true, none⟩
      (Json.obj [("type", Json.str "get_presets")])
  else .earlyReject .notConnected

/-- The `updateDisplay(clientIds, displayData, options)` synchronous phase:
validates `clientIds` is a non-empty array and `displayData` a truthy
object; performs NO connectivity check, then registers the handler for
`"display_updated"` and produces the command frame. -/
def updateDisplay (clientIds displayData : Json) (prior : List ℕ) (hid : ℕ) :
    StartOutcome :=
  if ¬ isNonEmptyArray clientIds then
    .earlyReject (.invalidArg "Client IDs must be a non-empty array")
  else if ¬ (jsTruthy displayData && jsTypeofObject displayData) then
    .earlyReject (.invalidArg "Display data must be an object")
  else
    .pending ⟨"display_updated", prior ++ [hid], true, none⟩
      (Json.obj [("type", Json.str "update_display"),
                 ("clients", clientIds), ("display", displayData)])

/-- The `savePreset(name, options)` synchronous phase: validates
`!name || typeof name !== "string"`; no connectivity check; registers the
handler for `"preset_saved"`. -/
def savePreset (name : Json) (prior : List ℕ) (hid : ℕ) : StartOutcome :=
  if ¬ (jsTruthy name && jsTypeofString name) then
    .earlyReject (.invalidArg "Preset name must be a non-empty string")
  else
    .pending ⟨"preset_saved", prior ++ [hid], true, none⟩
      (Json.obj [("type", Json.str "save_preset"), ("name", name)])

/-- The `loadPreset(name, options)` synchronous phase (same validation as
`savePreset`, awaiting `"preset_loaded"`). -/
def loadPreset (name : Json) (prior : List ℕ) (hid : ℕ) : StartOutcome :=
  if ¬ (jsTruthy name && jsTypeofString name) then
    .earlyReject (.invalidArg "Preset name must be a non-empty string")
  else
    .pending ⟨"preset_loaded", prior ++ [hid], true, none⟩
      (Json.obj [("type", Json.str "load_preset"), ("name", name)])

/-- The expression `data.clients || {}`: the resolution value of the getClients handler. -/
def clientsOf (data : Json) : Json := jsOrElse (objGet data "clients") (Json.obj [])

/-- The expression `data.presets || []`: the resolution value of the getPresets handler. -/
def presetsOf (data : Json) : Json := jsOrElse (objGet data "presets") (Json.arr [])

/-- The one-shot response handler body: invoked by dispatch only while
registered; splices itself out of the handler list, clears the timeout,
and resolves with `extract data`. -/
def requestHandlerFire (hid : ℕ) (extract : Json → Json) (data : Json)
    (s : ReqCall) : ReqCall :=
  if hid ∈ s.handlers then
    ⟨s.messageType, spliceFirst s.handlers hid, false,
      settleOnce s.result (.resolved (extract data))⟩
  else s

/-- The response-timeout body (fires only while armed): removes the handler
if still registered and rejects with a timeout error naming the awaited
message type (`Timeout waiting for messageType response`). -/
def requestTimeoutFire (hid : ℕ) (s : ReqCall) : ReqCall :=
  if s.timeoutArmed then
    ⟨s.messageType, spliceFirst s.handlers hid, false,
      settleOnce s.result (.rejectedTimeout s.messageType)⟩
  else s

/-- The `send(frame).catch((error) => { clearTimeout(timeoutId);
reject(error) })` block shared verbatim by all five request operations:
clears the timeout and rejects with the send error.  It does not touch
the handler list. -/
def requestSendCatch (e : String) (s : ReqCall) : ReqCall :=
  ⟨s.messageType, s.handlers, false, settleOnce s.result (.rejectedSend e)⟩

/-- The operation `send(message)`: rejects when not connected, rejects when the socket is
not in OPEN state, rejects when serialization throws; otherwise sends. -/
def send (isConnected socketOpen serializeOk : Bool) : Except String Unit :=
  if ¬ isConnected then .error "WebSocket not connected"
  else if ¬ socketOpen then .error "WebSocket not in OPEN state"
  else if ¬ serializeOk then .error "error sending message"
  else .ok ()

/-! ## Connection Lifecycle Manager: synchronous prelude of `connect` and
`disconnect`

`SvcState` holds the closure variables touched by `disconnect()` and by the
synchronous part of `connect(serverUrl, options)` (up to and including URL
validation / socket creation). -/

/-- Possible `WebSocket.readyState` values of an existing socket handle. -/
inductive ReadyState where
  | connecting
  | isOpen
  | closing
  | closed
deriving DecidableEq

/-- Events the service emits through `triggerEvent`. -/
inductive SvcEvt where
  | errorEvt (kind : String)
  | disconnectEvt
  | connectEvt
  | reconnectEvt
  | messageEvtS
deriving DecidableEq

/-- The service closure variables relevant to `connect`'s synchronous
prelude and to `disconnect`. -/
structure SvcState where
  socket : Option ReadyState
  isConnected : Bool
  reconnectTimeout : Bool
  connectionError : Option String
  connectionAttempts : ℕ
  url : String
deriving DecidableEq

/-- The operation `disconnect()`: when a socket exists, close it if OPEN or CONNECTING
(a throwing `close` — `closeThrows` — emits a `disconnect_error` error
event via the catch block), and in the `finally` block clear the socket
handle and the connected flag; afterwards always cancel any scheduled
reconnection timer.  `triggerEvent("disconnect", ...)` is never called
here (that happens in `socket.onclose`). -/
def disconnect (s : SvcState) (closeThrows : Bool) : SvcState × List SvcEvt :=
  match s.socket with
  | some rs =>
    let evts := if (rs = .isOpen ∨ rs = .connecting) ∧ closeThrows then
        [SvcEvt.errorEvt "disconnect_error"] else []
    ({ s with socket := none, isConnected := false, reconnectTimeout := false }, evts)
  | none =>
    ({ s with reconnectTimeout := false }, [])

/-- Whether a URL passes `connect`'s scheme validation:
`serverUrl.startsWith("ws://") || serverUrl.startsWith("wss://")`. -/
def validWsUrl (u : String) : Bool :=
  "ws://".data.isPrefixOf u.data || "wss://".data.isPrefixOf u.data

/-- Synchronous outcome of `connect`'s prelude. -/
inductive ConnectPrelude where
  | rejectedInvalidUrl
  | proceed
deriving DecidableEq

/-- The synchronous prelude of `connect(serverUrl, options)`, in source
order: `if (socket) { disconnect() }`, then `connectionError = null`, then
URL validation (rejecting with the invalid-URL error before any socket is
created), and otherwise `url = serverUrl; connectionAttempts++;
socket = new WebSocket(url)`. -/
def connectPrelude (serverUrl : String) (s : SvcState) : SvcState × ConnectPrelude :=
  let s0 := if s.socket.isSome then (disconnect s false).1 else s
  let s1 := { s0 with connectionError := none }
  if ¬ validWsUrl serverUrl then
    ({ s1 with connectionError := some "InvalidUrl" }, .rejectedInvalidUrl)
  else
    ({ s1 with url := serverUrl, connectionAttempts := s1.connectionAttempts + 1,
               socket := some .connecting }, .proceed)

/-! ## Connection attempt: the race between `socket.onopen`, the
connection timeout, `socket.onerror` and `socket.onclose`

After `connect`'s prelude creates the socket and arms the connection
timeout (`options.timeout || 10000`), four callbacks can fire.  `ConnState`
tracks the per-attempt state; `cstep` is the union of the callback bodies,
applied along an arbitrary event trace. -/

/-- Phase of the socket created by this connect attempt. -/
inductive SockPhase where
  | connecting
  | opened
  | closedPhase
deriving DecidableEq

/-- Settlement of the promise returned by `connect`. -/
inductive ConnOutcome where
  | resolved
  | timedOut
deriving DecidableEq

/-- State of one in-flight connect attempt. -/
structure ConnState where
  isConnected : Bool
  connectionAttempts : ℕ
  reconnectDelay : ℚ
  timeoutArmed : Bool
  sockPhase : SockPhase
  promise : Option ConnOutcome
deriving DecidableEq

/-- Callback events that can fire during a connect attempt. -/
inductive CEvent where
  | openEvt
  | timeoutEvt
  | sockErrorEvt
  | closeEvt (code : ℕ)
deriving DecidableEq

/-- The expression `options.timeout || 10000`: the connection timeout default (10 s). -/
def connectTimeoutMs : Option ℕ → ℕ
  | some t => if t = 0 then 10000 else t
  | none => 10000

/-- State right after `socket = new WebSocket(url)` and the arming of the
connection timeout: attempts were just incremented, the backoff delay is
whatever it was, the promise is unsettled. -/
def connectInit (a : ℕ) (d : ℚ) : ConnState :=
  { isConnected := false, connectionAttempts := a + 1, reconnectDelay := d,
    timeoutArmed := true, sockPhase := .connecting, promise := none }

/-- One callback firing.
`openEvt` (`socket.onopen`, possible only while the socket is connecting):
sets `isConnected`, resets `connectionAttempts` to 0 and `reconnectDelay`
to 1000, clears the connection timeout, resolves.
`timeoutEvt` (the armed connection timeout firing): when not connected,
rejects with the timeout error and closes/nulls the still-connecting
socket.
`sockErrorEvt` (`socket.onerror`): records/notifies only — it neither
resolves nor rejects.
`closeEvt` (`socket.onclose`): clears `isConnected` and the connection
timeout; it does not settle the promise. -/
def cstep (s : ConnState) : CEvent → ConnState
  | .openEvt =>
    if s.sockPhase = .connecting then
      { s with isConnected := true, connectionAttempts := 0, reconnectDelay := 1000,
               timeoutArmed := false, sockPhase := .opened,
               promise := settleOnce s.promise .resolved }
    else s
  | .timeoutEvt =>
    if s.timeoutArmed then
      if s.isConnected then { s with timeoutArmed := false }
      else
        { s with timeoutArmed := false,
                 promise := settleOnce s.promise .timedOut,
                 sockPhase := if s.sockPhase = .connecting then .closedPhase
                              else s.sockPhase }
    else s
  | .sockErrorEvt => s
  | .closeEvt _ =>
    { s with isConnected := false, timeoutArmed := false, sockPhase := .closedPhase }

/-- Run a connect attempt along a trace of callback events. -/
def connRun (a : ℕ) (d : ℚ) (t : List CEvent) : ConnState :=
  t.foldl cstep (connectInit a d)

/-- Whether, in a trace, the open callback fires before the connection
timeout (and before any close of the socket). -/
def openBeforeTimeout : List CEvent → Bool
  | [] => false
  | .openEvt :: _ => true
  | .timeoutEvt :: _ => false
  | .closeEvt _ :: _ => false
  | .sockErrorEvt :: rest => openBeforeTimeout rest

/-! ## Reconnection policy: `socket.onclose` decision and backoff -/

/-- Per-call connect options (absent fields of the `options` object are
`undefined`, i.e. falsy). -/
structure ConnectOptions where
  noReconnect : Bool
  unlimitedReconnect : Bool
deriving DecidableEq

/-- In `scheduleReconnect`, the timer body re-invokes `connect(url)` with no options object. -/
def reconnectCallOptions : ConnectOptions := ⟨false, false⟩

/-- What `socket.onclose` decides about reconnection. -/
inductive CloseAction where
  | reconnectScheduled
  | maxAttemptsError
  | noAction
deriving DecidableEq

/-- The reconnection decision at the end of `socket.onclose`:
`if (event.code !== 1000 && !options.noReconnect)` then either
`scheduleReconnect()` (when `connectionAttempts < MAX_RECONNECT_ATTEMPTS`,
i.e. 5, or `options.unlimitedReconnect`) or the terminal
`max_reconnect_attempts` error event. -/
def oncloseDecision (code : ℕ) (opts : ConnectOptions)
    (connectionAttempts : ℕ) : CloseAction :=
  if code ≠ 1000 ∧ opts.noReconnect = false then
    if connectionAttempts < 5 ∨ opts.unlimitedReconnect = true then
      .reconnectScheduled
    else .maxAttemptsError
  else .noAction

/-- The backoff update in `scheduleReconnect`'s `connect(url).catch`:
`reconnectDelay = Math.min(reconnectDelay * 1.5, MAX_RECONNECT_DELAY)`
with `MAX_RECONNECT_DELAY = 30000`. -/
def backoffStep (d : ℚ) : ℚ := min (d * (3 / 2)) 30000

/-- The reconnect delay after `n` failed attempts whose `connect` promises
have rejected (it starts at 1000 ms). -/
def delayAfter : ℕ → ℚ
  | 0 => 1000
  | n + 1 => backoffStep (delayAfter n)

/-- A run of consecutive failed connect attempts, every one closing
uncleanly (code 1006): each attempt increments `connectionAttempts` on
entry to `connect`, then its close applies `oncloseDecision`; a further
attempt happens only when a reconnection was scheduled.  `fuel` bounds the
number of attempts considered. -/
def reconnectRun (noRe unlim : Bool) (attempts fuel : ℕ) : List CloseAction :=
  match fuel with
  | 0 => []
  | Nat.succ f =>
    let a := attempts + 1
    let act := oncloseDecision 1006 ⟨noRe, unlim⟩ a
    act :: (if act = CloseAction.reconnectScheduled
            then reconnectRun noRe unlim a f else [])

/-! ## Message Router: `handleMessage` and `socket.onmessage`

`messageHandlers.get(messageType).forEach(...)` iterates over the live
handler array by index over the length cached at iteration start; a
handler that splices itself out during dispatch shifts its siblings down.
Each handler body is wrapped in try/catch, so a throwing handler does not
stop the iteration. -/

/-- A registered message handler: its identity (what `indexOf` compares),
whether it splices itself out of the table when invoked (the correlator's
one-shot handlers do), and whether its body throws. -/
structure MHandler where
  id : ℕ
  selfRemoving : Bool
  throws : Bool
deriving DecidableEq

/-- The `indexOf` + `splice(index, 1)` idiom on the handler array. -/
def removeFirstById : List MHandler → ℕ → List MHandler
  | [], _ => []
  | h :: rest, i => if h.id = i then rest else h :: removeFirstById rest i

/-- The `Array.prototype.forEach` walk over the live handler array: visit indices
`0 .. origLen - 1` (the length read when iteration starts); an index at or
beyond the current length no longer exists and is skipped; invoking a
self-removing handler splices it out before the next index is visited.
Returns the ids invoked, in order. -/
def forEachFrom : ℕ → ℕ → List MHandler → List ℕ
  | 0, _, _ => []
  | steps + 1, k, hs =>
    if hk : k < hs.length then
      hs[k].id :: forEachFrom steps (k + 1)
        (if hs[k].selfRemoving then removeFirstById hs hs[k].id else hs)
    else forEachFrom steps (k + 1) hs

/-- Dispatch one frame to the handler list registered for its type. -/
def forEachDispatch (hs : List MHandler) : List ℕ := forEachFrom hs.length 0 hs

/-- Replace every handler's `throws` flag according to `g` (identity and
self-removal behaviour unchanged). -/
def setThrows (g : ℕ → Bool) (hs : List MHandler) : List MHandler :=
  hs.map (fun h => ⟨h.id, h.selfRemoving, g h.id⟩)

/-- The `type` discriminator of a decoded frame (`data.type`), when it is
a string. -/
def msgTypeOf (data : Json) : Option String :=
  match objGet data "type" with
  | some (.str s) => some s
  | _ => none

/-- The `messageHandlers` lookup: `has`/`get` on the type key. -/
def lookupHandlers (table : List (String × List MHandler)) :
    Option String → Option (List MHandler)
  | none => none
  | some t => (table.find? (fun p => p.1 = t)).map (fun p => p.2)

/-- The router `handleMessage(data)`: if handlers are registered for `data.type`,
forEach-dispatch to them (each wrapped in try/catch); returns the ids of
the handlers actually invoked, in order. -/
def handleMessage (table : List (String × List MHandler)) (data : Json) : List ℕ :=
  match lookupHandlers table (msgTypeOf data) with
  | none => []
  | some hs => forEachDispatch hs

/-- Observable events of one `socket.onmessage` callback. -/
inductive RouterEvt where
  | invoked (i : ℕ)
  | messageEvt
  | parseErrorEvt
deriving DecidableEq

/-- The callback `socket.onmessage`: `JSON.parse` failure emits a `parse_error` error
event and reaches no handler; on success `handleMessage(data)` runs (it
catches handler errors itself, so it cannot throw) and then the generic
`message` event fires with the full decoded payload. -/
def onmessage (raw : Option Json) (table : List (String × List MHandler)) :
    List RouterEvt :=
  match raw with
  | none => [.parseErrorEvt]
  | some d => (handleMessage table d).map RouterEvt.invoked ++ [.messageEvt]

/-! # Theorems -/

/-! ## Helper lemmas -/

theorem spliceFirst_append_self (l : List ℕ) (h : ℕ) (hh : h ∉ l) :
    spliceFirst (l ++ [h]) h = l := by
  induction l with
  | nil => simp [spliceFirst]
  | cons x rest ih =>
    have hx : x ≠ h := fun hxh => hh (hxh ▸ List.mem_cons_self x rest)
    have hrest : h ∉ rest := fun hr => hh (List.mem_cons_of_mem x hr)
    simp [spliceFirst, hx, ih hrest]

/-! ## C10: connectivity prechecks of the request operations -/

/-- C10: getClients and getPresets reject immediately with the
not-connected error when the service is not connected, registering no
handler and sending nothing (the `earlyReject` outcome carries no call
state and no frame); updateDisplay, savePreset and loadPreset perform no
connectivity precheck — with valid arguments they reach the `pending`
state, with their one-shot handler registered and the timeout armed,
regardless of connectivity — and it is `send` itself that then rejects
when not connected. -/
theorem precheck_asymmetry :
    (∀ (prior : List ℕ) (hid : ℕ),
      getClients false prior hid = StartOutcome.earlyReject ReqError.notConnected) ∧
    (∀ (prior : List ℕ) (hid : ℕ),
      getPresets false prior hid = StartOutcome.earlyReject ReqError.notConnected) ∧
    (∀ (cs dd : Json) (prior : List ℕ) (hid : ℕ),
      isNonEmptyArray cs = true → (jsTruthy dd && jsTypeofObject dd) = true →
      updateDisplay cs dd prior hid =
        StartOutcome.pending ⟨"display_updated", prior ++ [hid], true, none⟩
          (Json.obj [("type", Json.str "update_display"),
                     ("clients", cs), ("display", dd)])) ∧
    (∀ (nm : Json) (prior : List ℕ) (hid : ℕ),
      (jsTruthy nm && jsTypeofString nm) = true →
      savePreset nm prior hid =
        StartOutcome.pending ⟨"preset_saved", prior ++ [hid], true, none⟩
          (Json.obj [("type", Json.str "save_preset"), ("name", nm)])) ∧
    (∀ (nm : Json) (prior : List ℕ) (hid : ℕ),
      (jsTruthy nm && jsTypeofString nm) = true →
      loadPreset nm prior hid =
        StartOutcome.pending ⟨"preset_loaded", prior ++ [hid], true, none⟩
          (Json.obj [("type", Json.str "load_preset"), ("name", nm)])) ∧
    (∀ so ser : Bool, send false so ser = Except.error "WebSocket not connected") := by
  refine ⟨fun prior hid => rfl, fun prior hid => rfl, ?_, ?_, ?_, fun so ser => rfl⟩
  · intro cs dd prior hid h1 h2
    simp [updateDisplay, h1, h2]
  · intro nm prior hid h
    simp [savePreset, h]
  · intro nm prior hid h
    simp [loadPreset, h]

/-- Witness for C10 at concrete inputs. -/
theorem precheck_asymmetry_witness :
    getClients false [] 0 = StartOutcome.earlyReject ReqError.notConnected ∧
    updateDisplay (Json.arr [Json.str "c1"]) (Json.obj []) [] 0 =
      StartOutcome.pending ⟨"display_updated", [0], true, none⟩
        (Json.obj [("type", Json.str "update_display"),
                   ("clients", Json.arr [Json.str "c1"]),
                   ("display", Json.obj [])]) ∧
    savePreset (Json.str "p") [] 0 =
      StartOutcome.pending ⟨"preset_saved", [0], true, none⟩
        (Json.obj [("type", Json.str "save_preset"), ("name", Json.str "p")]) :=
  ⟨precheck_asymmetry.1 [] 0,
   precheck_asymmetry.2.2.1 (Json.arr [Json.str "c1"]) (Json.obj []) [] 0 rfl rfl,
   precheck_asymmetry.2.2.2.1 (Json.str "p") [] 0 rfl⟩

/-! ## C1: behaviour when `send` rejects synchronously -/

/-- C1 counterexample: after getClients registers its one-shot handler
(id 0) for `"client_list"` and `send` rejects, the shared
`send(...).catch` block clears the timeout and rejects the promise with
the send error, but the handler it installed is still registered —
`handlers = [0]`, not `[]` — refuting "after the rejection no handler for
that reply type installed by this call remains registered". -/
theorem sendFail_leavesHandler_cex :
    getClients true [] 0 =
      StartOutcome.pending ⟨"client_list", [0], true, none⟩
        (Json.obj [("type", Json.str "get_clients")]) ∧
    (requestSendCatch "send failed" ⟨"client_list", [0], true, none⟩).handlers = [0] ∧
    (requestSendCatch "send failed" ⟨"client_list", [0], true, none⟩).timeoutArmed = false ∧
    (requestSendCatch "send failed" ⟨"client_list", [0], true, none⟩).result =
      some (ReqResult.rejectedSend "send failed") :=
  ⟨rfl, rfl, rfl, rfl⟩

/-- C1 amended: for every request operation, when the send rejects
synchronously the response timeout is cancelled and the operation's
promise rejects with that send error, but the one-shot handler registered
by the call is NOT deregistered — it remains in the handler table
(`prior ++ [hid]` unchanged). -/
theorem sendCatch_amended : ∀ (e : String) (prior : List ℕ) (hid : ℕ),
    (∀ (conn : Bool) (c : ReqCall) (f : Json), getClients conn prior hid = StartOutcome.pending c f →
      requestSendCatch e c =
        ⟨"client_list", prior ++ [hid], false, some (ReqResult.rejectedSend e)⟩) ∧
    (∀ (conn : Bool) (c : ReqCall) (f : Json), getPresets conn prior hid = StartOutcome.pending c f →
      requestSendCatch e c =
        ⟨"preset_list", prior ++ [hid], false, some (ReqResult.rejectedSend e)⟩) ∧
    (∀ (cs dd : Json) (c : ReqCall) (f : Json), updateDisplay cs dd prior hid = StartOutcome.pending c f →
      requestSendCatch e c =
        ⟨"display_updated", prior ++ [hid], false, some (ReqResult.rejectedSend e)⟩) ∧
    (∀ (nm : Json) (c : ReqCall) (f : Json), savePreset nm prior hid = StartOutcome.pending c f →
      requestSendCatch e c =
        ⟨"preset_saved", prior ++ [hid], false, some (ReqResult.rejectedSend e)⟩) ∧
    (∀ (nm : Json) (c : ReqCall) (f : Json), loadPreset nm prior hid = StartOutcome.pending c f →
      requestSendCatch e c =
        ⟨"preset_loaded", prior ++ [hid], false, some (ReqResult.rejectedSend e)⟩) := by
  intro e prior hid
  refine ⟨?_, ?_, ?_, ?_, ?_⟩
  · intro conn c f h
    cases conn with
    | false => exact StartOutcome.noConfusion h
    | true => injection h with h1 h2; subst h1; rfl
  · intro conn c f h
    cases conn with
    | false => exact StartOutcome.noConfusion h
    | true => injection h with h1 h2; subst h1; rfl
  · intro cs dd c f h
    simp only [updateDisplay] at h
    split at h
    · exact StartOutcome.noConfusion h
    · split at h
      · exact StartOutcome.noConfusion h
      · injection h with h1 h2; subst h1; rfl
  · intro nm c f h
    simp only [savePreset] at h
    split at h
    · exact StartOutcome.noConfusion h
    · injection h with h1 h2; subst h1; rfl
  · intro nm c f h
    simp only [loadPreset] at h
    split at h
    · exact StartOutcome.noConfusion h
    · injection h with h1 h2; subst h1; rfl

/-- Witness for the amended C1 theorem at a concrete getClients call. -/
theorem sendCatch_amended_witness :
    requestSendCatch "boom" ⟨"client_list", [0], true, none⟩ =
      ⟨"client_list", [0], false, some (ReqResult.rejectedSend "boom")⟩ :=
  (sendCatch_amended "boom" [] 0).1 true ⟨"client_list", [0], true, none⟩
    (Json.obj [("type", Json.str "get_clients")]) rfl

/-! ## C2: getClients request/reply and timeout -/

/-- C2: for a connected service, a getClients call followed by a
`{type:"client_list", clients: C}` frame resolves with the clients map C
(or with the empty object when the `clients` field is absent) and
deregisters its one-shot handler; with no reply, the response timeout
(default 5000 ms) removes the handler and rejects with a timeout error
naming `client_list`, leaving no handler of this call registered. -/
theorem getClients_request_reply :
    ∀ (prior : List ℕ) (hid : ℕ), hid ∉ prior →
    ∀ (m : List (String × Json)) (c : ReqCall) (f : Json),
      getClients true prior hid = StartOutcome.pending c f →
      (requestHandlerFire hid clientsOf
          (Json.obj [("type", Json.str "client_list"), ("clients", Json.obj m)]) c =
        ⟨"client_list", prior, false, some (ReqResult.resolved (Json.obj m))⟩) ∧
      (requestHandlerFire hid clientsOf (Json.obj [("type", Json.str "client_list")]) c =
        ⟨"client_list", prior, false, some (ReqResult.resolved (Json.obj []))⟩) ∧
      (requestTimeoutFire hid c =
        ⟨"client_list", prior, false, some (ReqResult.rejectedTimeout "client_list")⟩) ∧
      requestTimeoutMs none = 5000 := by
  intro prior hid hh m c f h
  injection h with h1 h2
  subst h1
  have hmem : hid ∈ prior ++ [hid] := List.mem_append_right _ (List.mem_singleton.mpr rfl)
  have hsp : spliceFirst (prior ++ [hid]) hid = prior := spliceFirst_append_self prior hid hh
  refine ⟨?_, ?_, ?_, rfl⟩
  · simp only [requestHandlerFire]
    rw [if_pos hmem, hsp]
    rfl
  · simp only [requestHandlerFire]
    rw [if_pos hmem, hsp]
    rfl
  · simp only [requestTimeoutFire]
    rw [if_pos trivial, hsp]
    rfl

/-- Witness for C2 at a concrete call and reply. -/
theorem getClients_request_reply_witness :
    (requestHandlerFire 0 clientsOf
        (Json.obj [("type", Json.str "client_list"),
                   ("clients", Json.obj [("a", Json.obj [])])])
        ⟨"client_list", [0], true, none⟩ =
      ⟨"client_list", [], false,
        some (ReqResult.resolved (Json.obj [("a", Json.obj [])]))⟩) ∧
    (requestHandlerFire 0 clientsOf (Json.obj [("type", Json.str "client_list")])
        ⟨"client_list", [0], true, none⟩ =
      ⟨"client_list", [], false, some (ReqResult.resolved (Json.obj []))⟩) ∧
    (requestTimeoutFire 0 ⟨"client_list", [0], true, none⟩ =
      ⟨"client_list", [], false, some (ReqResult.rejectedTimeout "client_list")⟩) ∧
    requestTimeoutMs none = 5000 :=
  getClients_request_reply [] 0 (List.not_mem_nil 0) [("a", Json.obj [])]
    ⟨"client_list", [0], true, none⟩ (Json.obj [("type", Json.str "get_clients")]) rfl

/-! ## C3: the connect promise race -/

/-- A settled connect promise stays settled with the same outcome through
any further callback. -/
theorem cstep_settled {s : ConnState} {o : ConnOutcome} (e : CEvent)
    (h : s.promise = some o) : (cstep s e).promise = some o := by
  cases e with
  | openEvt =>
    simp only [cstep]
    split
    · simp [settleOnce, h]
    · exact h
  | timeoutEvt =>
    simp only [cstep]
    split
    · split
      · exact h
      · simp [settleOnce, h]
    · exact h
  | sockErrorEvt => exact h
  | closeEvt c => simpa [cstep] using h

/-- Settlement is preserved along any further event trace. -/
theorem foldl_settled : ∀ (t : List CEvent) (s : ConnState) (o : ConnOutcome),
    s.promise = some o → (t.foldl cstep s).promise = some o := by
  intro t
  induction t with
  | nil => intro s o h; exact h
  | cons e rest ih => intro s o h; exact ih _ _ (cstep_settled e h)

/-- Once the attempt's socket is closed and the connection timeout
disarmed, no callback can change the promise (or leave that state). -/
theorem cstep_dead {s : ConnState} (e : CEvent)
    (h1 : s.sockPhase = SockPhase.closedPhase) (h2 : s.timeoutArmed = false) :
    (cstep s e).promise = s.promise ∧
    (cstep s e).sockPhase = SockPhase.closedPhase ∧
    (cstep s e).timeoutArmed = false := by
  cases e with
  | openEvt => simp [cstep, h1, h2]
  | timeoutEvt => simp [cstep, h1, h2]
  | sockErrorEvt => exact ⟨rfl, h1, h2⟩
  | closeEvt c => simp [cstep, h1, h2]

/-- From a closed-and-disarmed state, the promise never changes. -/
theorem foldl_dead : ∀ (t : List CEvent) (s : ConnState),
    s.sockPhase = SockPhase.closedPhase → s.timeoutArmed = false →
    (t.foldl cstep s).promise = s.promise := by
  intro t
  induction t with
  | nil => intro s _ _; rfl
  | cons e rest ih =>
    intro s h1 h2
    obtain ⟨hp, hph, hta⟩ := cstep_dead e h1 h2
    rw [List.foldl_cons, ih (cstep s e) hph hta, hp]

/-- Each callback preserves "if resolved then the attempt counter is 0 and
the backoff delay is 1000". -/
theorem cstep_attempts_reset {s : ConnState} (e : CEvent)
    (h : s.promise = some ConnOutcome.resolved →
         s.connectionAttempts = 0 ∧ s.reconnectDelay = 1000) :
    (cstep s e).promise = some ConnOutcome.resolved →
      (cstep s e).connectionAttempts = 0 ∧ (cstep s e).reconnectDelay = 1000 := by
  cases e with
  | openEvt =>
    simp only [cstep]
    split
    · intro _; exact ⟨rfl, rfl⟩
    · exact h
  | timeoutEvt =>
    simp only [cstep]
    split
    · split
      · exact h
      · intro hp
        simp only at hp ⊢
        cases hs : s.promise with
        | none => rw [hs] at hp; exact absurd hp (by simp [settleOnce])
        | some y =>
          rw [hs] at hp
          simp only [settleOnce] at hp
          exact h (by rw [hs, hp])
    · exact h
  | sockErrorEvt => exact h
  | closeEvt c =>
    simp only [cstep]
    exact h

/-- The resolved-implies-reset invariant holds along any trace. -/
theorem foldl_attempts_reset : ∀ (t : List CEvent) (s : ConnState),
    (s.promise = some ConnOutcome.resolved →
       s.connectionAttempts = 0 ∧ s.reconnectDelay = 1000) →
    ((t.foldl cstep s).promise = some ConnOutcome.resolved →
       (t.foldl cstep s).connectionAttempts = 0 ∧
       (t.foldl cstep s).reconnectDelay = 1000) := by
  intro t
  induction t with
  | nil => intro s h; exact h
  | cons e rest ih => intro s h; exact ih _ (cstep_attempts_reset e h)

/-- The connect promise resolves exactly when the open callback fires
before the connection timeout (and before any close). -/
theorem connRun_resolved_iff : ∀ (t : List CEvent) (a : ℕ) (d : ℚ),
    ((connRun a d t).promise = some ConnOutcome.resolved) ↔
      openBeforeTimeout t = true := by
  intro t
  induction t with
  | nil => intro a d; simp [connRun, connectInit, openBeforeTimeout]
  | cons e rest ih =>
    intro a d
    cases e with
    | openEvt =>
      have hres : (connRun a d (CEvent.openEvt :: rest)).promise =
          some ConnOutcome.resolved := by
        show ((CEvent.openEvt :: rest).foldl cstep (connectInit a d)).promise = _
        rw [List.foldl_cons]
        exact foldl_settled rest _ _ rfl
      simp [hres, openBeforeTimeout]
    | timeoutEvt =>
      have hrej : (connRun a d (CEvent.timeoutEvt :: rest)).promise =
          some ConnOutcome.timedOut := by
        show ((CEvent.timeoutEvt :: rest).foldl cstep (connectInit a d)).promise = _
        rw [List.foldl_cons]
        exact foldl_settled rest _ _ rfl
      simp [hrej, openBeforeTimeout]
    | sockErrorEvt =>
      have hstep : cstep (connectInit a d) CEvent.sockErrorEvt = connectInit a d := rfl
      have heq : connRun a d (CEvent.sockErrorEvt :: rest) = connRun a d rest := by
        show ((CEvent.sockErrorEvt :: rest).foldl cstep (connectInit a d)) = _
        rw [List.foldl_cons, hstep]
        rfl
      rw [heq]
      exact ih a d
    | closeEvt c =>
      have hnone : (connRun a d (CEvent.closeEvt c :: rest)).promise = none := by
        show ((CEvent.closeEvt c :: rest).foldl cstep (connectInit a d)).promise = _
        rw [List.foldl_cons]
        exact foldl_dead rest _ rfl rfl
      simp [hnone, openBeforeTimeout]

/-- C3: the connect promise settles at most once — once settled, any
further events leave the outcome unchanged, so in particular a promise the
timeout has rejected never resolves later; it resolves exactly when the
transport signals open before the connection timeout (default 10000 ms)
fires; and on the resolving path the attempt counter is reset to 0 and the
backoff delay to 1000 ms. -/
theorem connect_promise_spec : ∀ (a : ℕ) (d : ℚ) (t t' : List CEvent) (o : ConnOutcome),
    ((connRun a d t).promise = some o → (connRun a d (t ++ t')).promise = some o) ∧
    ((connRun a d t).promise = some ConnOutcome.resolved ↔
       openBeforeTimeout t = true) ∧
    ((connRun a d t).promise = some ConnOutcome.resolved →
       (connRun a d t).connectionAttempts = 0 ∧
       (connRun a d t).reconnectDelay = 1000) ∧
    connectTimeoutMs none = 10000 := by
  intro a d t t' o
  refine ⟨?_, connRun_resolved_iff t a d, ?_, rfl⟩
  · intro h
    show ((t ++ t').foldl cstep (connectInit a d)).promise = some o
    rw [List.foldl_append]
    exact foldl_settled t' _ _ h
  · exact foldl_attempts_reset t (connectInit a d)
      (fun h => absurd h (by simp [connectInit]))

/-- Witness for C3: an attempt whose socket opens first (then closes
later) stays resolved, with counter and backoff reset. -/
theorem connect_promise_spec_witness :
    (connRun 7 2000 ([CEvent.openEvt] ++ [CEvent.closeEvt 1006])).promise =
      some ConnOutcome.resolved ∧
    (connRun 7 2000 [CEvent.openEvt]).connectionAttempts = 0 ∧
    (connRun 7 2000 [CEvent.openEvt]).reconnectDelay = 1000 :=
  ⟨(connect_promise_spec 7 2000 [CEvent.openEvt] [CEvent.closeEvt 1006]
      ConnOutcome.resolved).1 rfl,
   (connect_promise_spec 7 2000 [CEvent.openEvt] [] ConnOutcome.resolved).2.2.1 rfl⟩

/-! ## C4: invalid-URL connect calls -/

/-- C4 counterexample: calling `connect("http://x")` on a service with an
open socket and a pending reconnection timer rejects with the invalid-URL
error, but — because `if (socket) { disconnect() }` runs before URL
validation — it DOES tear the existing connection down (socket cleared,
no longer connected) and DOES cancel the pending reconnection timer,
refuting "an existing open connection is not torn down and no pending
reconnection timer is cancelled by the invalid call". -/
theorem connect_invalidUrl_cex :
    (connectPrelude "http://x"
        ⟨some ReadyState.isOpen, true, true, none, 3, "ws://old"⟩).2 =
      ConnectPrelude.rejectedInvalidUrl ∧
    (connectPrelude "http://x"
        ⟨some ReadyState.isOpen, true, true, none, 3, "ws://old"⟩).1.socket = none ∧
    (connectPrelude "http://x"
        ⟨some ReadyState.isOpen, true, true, none, 3, "ws://old"⟩).1.isConnected = false ∧
    (connectPrelude "http://x"
        ⟨some ReadyState.isOpen, true, true, none, 3, "ws://old"⟩).1.reconnectTimeout = false := by
  refine ⟨?_, ?_, ?_, ?_⟩ <;> decide

/-- C4 amended: an invalid-scheme connect call rejects with the
invalid-URL error and opens no transport, but teardown precedes
validation: when a socket exists it is disconnected first (clearing the
connected flag and cancelling any pending reconnection timer); only when
no socket exists does the call leave the reconnection timer and the rest
of the state untouched.  The attempt counter and stored URL are unchanged
either way. -/
theorem connect_invalidUrl_amended : ∀ (s : SvcState) (u : String),
    validWsUrl u = false →
    (connectPrelude u s).2 = ConnectPrelude.rejectedInvalidUrl ∧
    (connectPrelude u s).1.socket = none ∧
    (connectPrelude u s).1.connectionError = some "InvalidUrl" ∧
    (connectPrelude u s).1.connectionAttempts = s.connectionAttempts ∧
    (connectPrelude u s).1.url = s.url ∧
    (s.socket.isSome = true →
      (connectPrelude u s).1.reconnectTimeout = false ∧
      (connectPrelude u s).1.isConnected = false) ∧
    (s.socket = none →
      (connectPrelude u s).1.reconnectTimeout = s.reconnectTimeout ∧
      (connectPrelude u s).1.isConnected = s.isConnected) := by
  intro s u hu
  cases hsock : s.socket with
  | some rs =>
    refine ⟨?_, ?_, ?_, ?_, ?_, fun _ => ⟨?_, ?_⟩, fun hn => ?_⟩
    · simp [connectPrelude, disconnect, hsock, hu]
    · simp [connectPrelude, disconnect, hsock, hu]
    · simp [connectPrelude, disconnect, hsock, hu]
    · simp [connectPrelude, disconnect, hsock, hu]
    · simp [connectPrelude, disconnect, hsock, hu]
    · simp [connectPrelude, disconnect, hsock, hu]
    · simp [connectPrelude, disconnect, hsock, hu]
    · exact Option.noConfusion hn
  | none =>
    refine ⟨?_, ?_, ?_, ?_, ?_, fun hs2 => ?_, fun _ => ⟨?_, ?_⟩⟩
    · simp [connectPrelude, disconnect, hsock, hu]
    · simp [connectPrelude, disconnect, hsock, hu]
    · simp [connectPrelude, disconnect, hsock, hu]
    · simp [connectPrelude, disconnect, hsock, hu]
    · simp [connectPrelude, disconnect, hsock, hu]
    · exact absurd hs2 (by simp)
    · simp [connectPrelude, disconnect, hsock, hu]
    · simp [connectPrelude, disconnect, hsock, hu]

/-- Witness for the amended C4 theorem: a socketless service with a
pending reconnect timer keeps the timer across an invalid connect call. -/
theorem connect_invalidUrl_amended_witness :
    (connectPrelude "http://x" ⟨none, false, true, none, 0, "ws://old"⟩).2 =
      ConnectPrelude.rejectedInvalidUrl ∧
    (connectPrelude "http://x" ⟨none, false, true, none, 0, "ws://old"⟩).1.socket = none ∧
    (connectPrelude "http://x" ⟨none, false, true, none, 0, "ws://old"⟩).1.reconnectTimeout = true :=
  ⟨(connect_invalidUrl_amended ⟨none, false, true, none, 0, "ws://old"⟩ "http://x" (by decide)).1,
   (connect_invalidUrl_amended ⟨none, false, true, none, 0, "ws://old"⟩ "http://x" (by decide)).2.1,
   ((connect_invalidUrl_amended ⟨none, false, true, none, 0, "ws://old"⟩ "http://x"
      (by decide)).2.2.2.2.2.2 rfl).1⟩

/-! ## C5: disconnect idempotence -/

/-- C5: every `disconnect()` call clears the socket handle, marks the
service not connected (given the basic invariant that a connected service
has a socket), and cancels any scheduled reconnection timer, even when
closing the transport throws; a second `disconnect()` right after changes
nothing and emits nothing, and neither call itself fires a `disconnect`
event, so no duplicate `disconnect` events arise. -/
theorem disconnect_idempotent : ∀ (s : SvcState) (ct ct' : Bool),
    (s.isConnected = true → s.socket.isSome = true) →
    ((disconnect s ct).1.socket = none) ∧
    ((disconnect s ct).1.isConnected = false) ∧
    ((disconnect s ct).1.reconnectTimeout = false) ∧
    (disconnect (disconnect s ct).1 ct' = ((disconnect s ct).1, [])) ∧
    (SvcEvt.disconnectEvt ∉ (disconnect s ct).2) ∧
    (SvcEvt.disconnectEvt ∉ (disconnect (disconnect s ct).1 ct').2) := by
  intro s ct ct' hInv
  cases hsock : s.socket with
  | some rs =>
    refine ⟨?_, ?_, ?_, ?_, ?_, ?_⟩ <;> simp [disconnect, hsock]
  | none =>
    have hic : s.isConnected = false := by
      cases hic2 : s.isConnected
      · rfl
      · exact absurd (hInv hic2) (by simp [hsock])
    refine ⟨?_, ?_, ?_, ?_, ?_, ?_⟩ <;> simp [disconnect, hsock, hic]

/-- Witness for C5 at a concrete connected state whose close throws. -/
theorem disconnect_idempotent_witness :
    ((disconnect ⟨some ReadyState.isOpen, true, true, none, 2, "ws://a"⟩ true).1.socket = none) ∧
    ((disconnect ⟨some ReadyState.isOpen, true, true, none, 2, "ws://a"⟩ true).1.isConnected = false) ∧
    ((disconnect ⟨some ReadyState.isOpen, true, true, none, 2, "ws://a"⟩ true).1.reconnectTimeout = false) ∧
    (disconnect (disconnect ⟨some ReadyState.isOpen, true, true, none, 2, "ws://a"⟩ true).1 false =
      ((disconnect ⟨some ReadyState.isOpen, true, true, none, 2, "ws://a"⟩ true).1, [])) ∧
    (SvcEvt.disconnectEvt ∉
      (disconnect ⟨some ReadyState.isOpen, true, true, none, 2, "ws://a"⟩ true).2) ∧
    (SvcEvt.disconnectEvt ∉
      (disconnect (disconnect ⟨some ReadyState.isOpen, true, true, none, 2, "ws://a"⟩ true).1 false).2) :=
  disconnect_idempotent ⟨some ReadyState.isOpen, true, true, none, 2, "ws://a"⟩ true false
    (fun _ => rfl)

/-! ## C6: the backoff sequence -/

/-- C6 counterexample: the delay starts at 1000 ms and
`reconnectDelay = Math.min(reconnectDelay * 1.5, 30000)` runs once after
each failed attempt's connect promise rejects, so after N = 1 such failed
attempts the delay is 1500 ms — not
`min(1000 * 1.5^(N-1), 30000) = 1000` ms as the claim's formula states. -/
theorem backoff_offByOne_cex :
    delayAfter 1 = 1500 ∧
    delayAfter 1 ≠ min (1000 * (3 / 2 : ℚ) ^ (1 - 1)) 30000 := by
  constructor
  · norm_num [delayAfter, backoffStep, min_def]
  · norm_num [delayAfter, backoffStep, min_def]

/-- C6 amended: the backoff delay starts at 1000 ms and is multiplied by
1.5 (capped at 30000 ms) exactly once after each failed attempt's connect
promise rejects, so after N processed failures the delay used for the next
scheduled reconnection is min(1000 * 1.5^N, 30000) ms — equivalently, the
N-th scheduled reconnection (1-indexed) uses min(1000 * 1.5^(N-1), 30000). -/
theorem delayAfter_formula :
    delayAfter 0 = 1000 ∧
    ∀ n : ℕ, delayAfter n = min (1000 * (3 / 2 : ℚ) ^ n) 30000 := by
  refine ⟨rfl, ?_⟩
  intro n
  induction n with
  | zero =>
    rw [pow_zero, mul_one]
    rw [show delayAfter 0 = 1000 from rfl]
    rw [min_eq_left (by norm_num : (1000 : ℚ) ≤ 30000)]
  | succ n ih =>
    have key : delayAfter (n + 1) = backoffStep (delayAfter n) := rfl
    rw [key, ih, backoffStep]
    rcases le_total (1000 * (3 / 2 : ℚ) ^ n) 30000 with h | h
    · rw [min_eq_left h, pow_succ, ← mul_assoc]
    · have hpos : (0 : ℚ) < 1000 * (3 / 2) ^ n := by positivity
      have h2 : (30000 : ℚ) ≤ 1000 * (3 / 2) ^ n * (3 / 2) := by nlinarith
      have h3 : (30000 : ℚ) ≤ 30000 * (3 / 2) := by norm_num
      rw [min_eq_right h, min_eq_right h3, pow_succ, ← mul_assoc, min_eq_right h2]

/-! ## C7: the reconnection ceiling -/

/-- C7: with reconnection enabled (`noReconnect` unset) and the ceiling
not waived (`unlimitedReconnect` unset), a fresh service whose connect
attempts all fail uncleanly performs exactly 5 attempts: the first four
closes schedule a reconnection, the fifth emits the
`max_reconnect_attempts` error exactly once, and — since no reconnection
is scheduled — no further attempt occurs no matter how much fuel
remains. -/
theorem max_reconnect_ceiling : ∀ fuel : ℕ, 5 ≤ fuel →
    reconnectRun false false 0 fuel =
      [CloseAction.reconnectScheduled, CloseAction.reconnectScheduled,
       CloseAction.reconnectScheduled, CloseAction.reconnectScheduled,
       CloseAction.maxAttemptsError] ∧
    (reconnectRun false false 0 fuel).count CloseAction.maxAttemptsError = 1 := by
  intro fuel hf
  obtain ⟨k, rfl⟩ : ∃ k, fuel = k + 5 := ⟨fuel - 5, by omega⟩
  exact ⟨rfl, rfl⟩

/-- Witness for C7 at the minimal fuel. -/
theorem max_reconnect_ceiling_witness :
    reconnectRun false false 0 5 =
      [CloseAction.reconnectScheduled, CloseAction.reconnectScheduled,
       CloseAction.reconnectScheduled, CloseAction.reconnectScheduled,
       CloseAction.maxAttemptsError] ∧
    (reconnectRun false false 0 5).count CloseAction.maxAttemptsError = 1 :=
  max_reconnect_ceiling 5 (Nat.le_refl 5)

/-! ## C8: close-code handling -/

/-- C8: a clean close (code 1000) never leads to a scheduled reconnection;
an unclean close applies the reconnection policy (scheduling, or the
max-attempts error) unless `noReconnect` was set on that connect call; and
the attempts the service re-invokes from `scheduleReconnect` pass no
options, so the policy applies to their closes as well. -/
theorem onclose_reconnect_policy : ∀ (code : ℕ) (opts : ConnectOptions) (attempts : ℕ),
    (code = 1000 → oncloseDecision code opts attempts = CloseAction.noAction) ∧
    (opts.noReconnect = true → oncloseDecision code opts attempts = CloseAction.noAction) ∧
    (code ≠ 1000 → opts.noReconnect = false →
      oncloseDecision code opts attempts =
        if attempts < 5 ∨ opts.unlimitedReconnect = true then CloseAction.reconnectScheduled
        else CloseAction.maxAttemptsError) ∧
    (code ≠ 1000 →
      oncloseDecision code reconnectCallOptions attempts =
        if attempts < 5 then CloseAction.reconnectScheduled
        else CloseAction.maxAttemptsError) := by
  intro code opts attempts
  refine ⟨?_, ?_, ?_, ?_⟩
  · intro h
    simp [oncloseDecision, h]
  · intro h
    simp [oncloseDecision, h]
  · intro h1 h2
    simp only [oncloseDecision]
    rw [if_pos ⟨h1, h2⟩]
  · intro h1
    simp only [oncloseDecision, reconnectCallOptions]
    rw [if_pos ⟨h1, trivial⟩]
    simp

/-- Witness for C8: clean close at attempt 1 does nothing; unclean close
at attempt 5 of a reconnect-invoked call emits the max-attempts error. -/
theorem onclose_reconnect_policy_witness :
    oncloseDecision 1000 ⟨false, false⟩ 1 = CloseAction.noAction ∧
    oncloseDecision 1006 reconnectCallOptions 5 = CloseAction.maxAttemptsError :=
  ⟨(onclose_reconnect_policy 1000 ⟨false, false⟩ 1).1 rfl,
   ((onclose_reconnect_policy 1006 reconnectCallOptions 5).2.2.2 (by norm_num)).trans rfl⟩

/-! ## C9: dispatch over the live handler array -/

/-- C9 counterexample: two handlers are registered for `"client_list"`
when the frame arrives; handler 0 is one-shot (it splices itself out
during its invocation) and handler 1 is an ordinary sibling.  `forEach`
over the live array then skips handler 1 — only `[0]` is invoked —
refuting "one handler's self-removal not preventing a sibling handler
from being invoked". -/
theorem dispatch_selfRemoval_skips_cex :
    handleMessage [("client_list", [⟨0, true, false⟩, ⟨1, false, false⟩])]
        (Json.obj [("type", Json.str "client_list")]) = [0] ∧
    (1 : ℕ) ∉ handleMessage [("client_list", [⟨0, true, false⟩, ⟨1, false, false⟩])]
        (Json.obj [("type", Json.str "client_list")]) :=
  ⟨rfl, by decide⟩

/-- When no handler in the list is self-removing, the forEach visit from
index `k` (with the remaining step budget) invokes every remaining handler
in order. -/
theorem forEachFrom_noRemove : ∀ (steps k : ℕ) (hs : List MHandler),
    (∀ h ∈ hs, h.selfRemoving = false) → hs.length = k + steps →
    forEachFrom steps k hs = (hs.drop k).map MHandler.id := by
  intro steps
  induction steps with
  | zero =>
    intro k hs hall hlen
    rw [Nat.add_zero] at hlen
    rw [forEachFrom, ← hlen, List.drop_length, List.map_nil]
  | succ n ih =>
    intro k hs hall hlen
    have hk : k < hs.length := by omega
    have hsr : hs[k].selfRemoving = false := hall _ (List.getElem_mem hk)
    rw [forEachFrom, dif_pos hk, hsr]
    simp only [Bool.false_eq_true, if_false]
    rw [ih (k + 1) hs hall (by omega), List.drop_eq_getElem_cons hk, List.map_cons]

/-- Removal by `removeFirstById` commutes with replacing `throws` flags. -/
theorem removeFirstById_setThrows (g : ℕ → Bool) : ∀ (hs : List MHandler) (i : ℕ),
    removeFirstById (setThrows g hs) i = setThrows g (removeFirstById hs i) := by
  intro hs i
  induction hs with
  | nil => rfl
  | cons h rest ih =>
    by_cases hc : h.id = i
    · simp [setThrows, removeFirstById, hc]
    · show (if h.id = i then setThrows g rest
          else (⟨h.id, h.selfRemoving, g h.id⟩ : MHandler) ::
            removeFirstById (setThrows g rest) i) =
        setThrows g (if h.id = i then rest else h :: removeFirstById rest i)
      rw [if_neg hc, if_neg hc, ih]
      rfl

/-- The forEach visit is insensitive to `throws` flags: a throwing handler
is caught per-handler and neither stops the iteration nor changes which
siblings are invoked. -/
theorem forEachFrom_setThrows (g : ℕ → Bool) : ∀ (steps k : ℕ) (hs : List MHandler),
    forEachFrom steps k (setThrows g hs) = forEachFrom steps k hs := by
  intro steps
  induction steps with
  | zero => intro k hs; rfl
  | succ n ih =>
    intro k hs
    by_cases hk : k < hs.length
    · have hk2 : k < (setThrows g hs).length := by simpa [setThrows] using hk
      rw [forEachFrom, dif_pos hk2, forEachFrom, dif_pos hk]
      simp only [setThrows, List.getElem_map]
      cases hsr : hs[k].selfRemoving with
      | false =>
        simp only [hsr, Bool.false_eq_true, if_false]
        exact congrArg (fun l => hs[k].id :: l) (ih (k + 1) hs)
      | true =>
        simp only [hsr, if_true]
        show hs[k].id :: forEachFrom n (k + 1)
            (removeFirstById (setThrows g hs) hs[k].id) =
          hs[k].id :: forEachFrom n (k + 1) (removeFirstById hs hs[k].id)
        rw [removeFirstById_setThrows g hs hs[k].id]
        exact congrArg (fun l => hs[k].id :: l) (ih (k + 1) (removeFirstById hs hs[k].id))
    · have hk2 : ¬ k < (setThrows g hs).length := by simpa [setThrows] using hk
      rw [forEachFrom, dif_neg hk2, forEachFrom, dif_neg hk]
      exact ih (k + 1) hs

/-- C9 amended: when no handler removes itself during dispatch, every
handler registered for the frame's type at dispatch time is invoked in
registration order; which handlers are invoked is independent of which
handlers throw (per-handler try/catch); a handler that splices itself out
during dispatch, however, shifts its siblings down and the forEach skips
the one that slides into its index.  The generic `message` event fires
(last) after per-type dispatch on every successfully decoded frame, and a
frame that fails to decode produces only the parse error event. -/
theorem dispatch_amended :
    (∀ hs : List MHandler, (∀ h ∈ hs, h.selfRemoving = false) →
      forEachDispatch hs = hs.map MHandler.id) ∧
    (∀ (g : ℕ → Bool) (hs : List MHandler),
      forEachDispatch (setThrows g hs) = forEachDispatch hs) ∧
    (∀ (d : Json) (table : List (String × List MHandler)),
      (onmessage (some d) table).getLast? = some RouterEvt.messageEvt) ∧
    (∀ table : List (String × List MHandler),
      onmessage none table = [RouterEvt.parseErrorEvt]) := by
  refine ⟨?_, ?_, ?_, fun table => rfl⟩
  · intro hs hall
    rw [forEachDispatch, forEachFrom_noRemove hs.length 0 hs hall (by omega),
        List.drop_zero]
  · intro g hs
    have hl : (setThrows g hs).length = hs.length := by simp [setThrows]
    rw [forEachDispatch, forEachDispatch, hl]
    exact forEachFrom_setThrows g hs.length 0 hs
  · intro d table
    rw [onmessage, List.getLast?_concat]

/-- Witness for the amended C9 theorem at concrete handler lists. -/
theorem dispatch_amended_witness :
    forEachDispatch [⟨0, false, true⟩, ⟨1, false, false⟩] = [0, 1] ∧
    (onmessage (some (Json.obj [("type", Json.str "x")])) []).getLast? =
      some RouterEvt.messageEvt :=
  ⟨dispatch_amended.1 [⟨0, false, true⟩, ⟨1, false, false⟩] (by decide),
   dispatch_amended.2.2.1 (Json.obj [("type", Json.str "x")]) []⟩
